import Mathlib

/-!
Verification development for the hurricane-hunter dashboard.

The program under study is the React application in
`hurricane-dashboard` (`App.jsx` and its components).  Its numeric values
are JavaScript numbers; here they are modelled exactly as fractions of
integers (`Frac`), so that every predicate of the embedding is a
computable `Bool` the kernel can evaluate.  All list-shaped JavaScript
values (`Object.entries` of the balloons object, the storms array, a
balloon's `trajectory` array) are modelled as Lean lists in the same
order.  JavaScript exceptions are modelled with `Except String`.
-/

deriving instance DecidableEq for Except

namespace HurricaneHunter

/-- Exact model of a JavaScript number as a fraction `num / den`.
Fractions are never reduced; all comparisons go through cross
multiplication, so every operation is a plain integer computation that
the kernel can reduce. -/
structure Frac where
  num : Int
  den : Int
deriving DecidableEq

instance : OfNat Frac n := ⟨⟨(n : Int), 1⟩⟩

instance : Neg Frac := ⟨fun a => ⟨-a.num, a.den⟩⟩

instance : Add Frac := ⟨fun a b => ⟨a.num * b.den + b.num * a.den, a.den * b.den⟩⟩

instance : Sub Frac := ⟨fun a b => ⟨a.num * b.den - b.num * a.den, a.den * b.den⟩⟩

instance : Mul Frac := ⟨fun a b => ⟨a.num * b.num, a.den * b.den⟩⟩

instance : Div Frac := ⟨fun a b => ⟨a.num * b.den, a.den * b.num⟩⟩

/-- Decimal literals such as `27.5` or `0.8`, exactly. -/
instance : OfScientific Frac :=
  ⟨fun m b e => if b then ⟨(m : Int), (10 ^ e : Nat)⟩ else ⟨(m : Int) * (10 ^ e : Nat), 1⟩⟩

/-- Value comparison `a ≤ b` of two fractions (denominators of all values
produced by the program are nonzero). -/
def Frac.leB (a b : Frac) : Bool :=
  decide (0 ≤ (b.num * a.den - a.num * b.den) * (a.den * b.den))

/-- Value comparison `a < b`. -/
def Frac.ltB (a b : Frac) : Bool :=
  decide (0 < (b.num * a.den - a.num * b.den) * (a.den * b.den))

/-- Value comparison `a > b`. -/
def Frac.gtB (a b : Frac) : Bool := b.ltB a

/-- Value equality `a === b` of two JavaScript numbers. -/
def Frac.eqB (a b : Frac) : Bool := a.num * b.den == b.num * a.den

/-- A GeoJSON position `[longitude, latitude]`. -/
abbrev Pos := Frac × Frac

/-! ### Model of the `@turf/turf` calls made by `App.jsx`

`turf.polygon` validates each linear ring (at least four positions, first
and last position equal) and throws otherwise; `turf.buffer(poly, d,
{units:'kilometers'})` expands the polygon by `d` kilometers; and
`turf.booleanPointInPolygon` runs an even-odd ray cast (with an inclusive
boundary test) over the result.  The composite of the latter two calls is
modelled by `pointInBufferedPolygon`: a point lies in the buffered region
iff it lies inside the original outer ring or within `d` kilometers of
that ring's boundary.  Kilometer distances use a local equirectangular
approximation of the geodesic metric (degrees scaled by `kmPerDegree`,
longitudes additionally by the cosine of the latitude); the
floating-point planar geometry of the JavaScript library is itself an
approximation of the geodesic buffer at this scale. -/

/-- Validation error for one linear ring, as thrown by `turf.polygon`. -/
def ringError (ring : List Pos) : Option String :=
  if ring.length < 4 then
    some "Each LinearRing of a Polygon must have 4 or more Positions."
  else
    match ring.head?, ring.getLast? with
    | some a, some b =>
        if a.1.eqB b.1 && a.2.eqB b.2 then none
        else some "First and last Position are not equivalent."
    | _, _ => none

/-- Model of `turf.polygon(coordinates)`: returns the rings unchanged, or
the first validation error. -/
def turfPolygon (coords : List (List Pos)) : Except String (List (List Pos)) :=
  match coords.findSome? ringError with
  | some e => .error e
  | none => .ok coords

/-- Inclusive boundary test of the ray cast: the point lies on the edge
`[a, b]`. -/
def onEdgeB (p a b : Pos) : Bool :=
  let px := p.1
  let py := p.2
  let xi := a.1
  let yi := a.2
  let xj := b.1
  let yj := b.2
  (py * (xi - xj) + (yi * (xj - px) + yj * (px - xi))).eqB 0 &&
    ((xi - px) * (xj - px)).leB 0 && ((yi - py) * (yj - py)).leB 0

/-- One toggle step of the even-odd ray cast: the horizontal ray from `p`
crosses the edge `[a, b]`. -/
def edgeCrossesB (p a b : Pos) : Bool :=
  let px := p.1
  let py := p.2
  let xi := a.1
  let yi := a.2
  let xj := b.1
  let yj := b.2
  (yi.gtB py != yj.gtB py) && px.ltB ((xj - xi) * (py - yi) / (yj - yi) + xi)

/-- Consecutive edges of a closed ring. -/
def ringEdges (ring : List Pos) : List (Pos × Pos) := ring.zip ring.tail

/-- Fold of the ray cast over the edges, with the inclusive boundary
short circuit. -/
def inRingGo (p : Pos) : List (Pos × Pos) → Bool → Bool
  | [], isInside => isInside
  | (a, b) :: es, isInside =>
    if onEdgeB p a b then true
    else inRingGo p es (if edgeCrossesB p a b then !isInside else isInside)

/-- Even-odd ray cast of `p` against a closed ring (model of
`turf.booleanPointInPolygon` on a single ring). -/
def booleanPointInRing (p : Pos) (ring : List Pos) : Bool :=
  inRingGo p (ringEdges ring) false

/-- Rational approximation of π used by the kilometer scale. -/
def piApprox : Frac := ⟨355, 113⟩

/-- Kilometers per degree of arc on the Earth, 2·π·6371/360. -/
def kmPerDegree : Frac := ⟨1111949, 10000⟩

/-- Cosine of an angle given in degrees (truncated Taylor series). -/
def cosDeg (x : Frac) : Frac :=
  let r := x * piApprox / 180
  let r2 := r * r
  1 - r2 / 2 + r2 * r2 / 24 - r2 * r2 * r2 / 720

/-- Squared planar distance from the origin to the segment `[a, b]` is at
most `d2`. -/
def segDistSqLeB (a b : Pos) (d2 : Frac) : Bool :=
  let dx := b.1 - a.1
  let dy := b.2 - a.2
  let len2 := dx * dx + dy * dy
  if len2.eqB 0 then (a.1 * a.1 + a.2 * a.2).leB d2
  else
    let t := (0 - a.1 * dx - a.2 * dy) / len2
    let tc := if t.ltB 0 then 0 else if Frac.ltB 1 t then 1 else t
    let cx := a.1 + tc * dx
    let cy := a.2 + tc * dy
    (cx * cx + cy * cy).leB d2

/-- The point `p` lies within `dKm` kilometers of the boundary of the
ring, in local equirectangular kilometer coordinates centred at `p`. -/
def withinRingDistance (p : Pos) (ring : List Pos) (dKm : Frac) : Bool :=
  let scaleX := kmPerDegree * cosDeg p.2
  let loc : Pos → Pos := fun q => ((q.1 - p.1) * scaleX, (q.2 - p.2) * kmPerDegree)
  (ringEdges (ring.map loc)).any fun e => segDistSqLeB e.1 e.2 (dKm * dKm)

/-- Model of `turf.booleanPointInPolygon(point, turf.buffer(polygon, dKm,
{units:'kilometers'}))`: the point lies inside the outer ring or within
`dKm` kilometers of its boundary. -/
def pointInBufferedPolygon (rings : List (List Pos)) (p : Pos) (dKm : Frac) : Bool :=
  match rings with
  | [] => false
  | outer :: _ => booleanPointInRing p outer || withinRingDistance p outer dKm

/-! ### Data model of `App.jsx` -/

/-- One entry of a balloon's `trajectory` array. -/
structure TrajPoint where
  lat : Frac
  lon : Frac
  alt : Frac
  timestamp : Frac
deriving DecidableEq

/-- A balloon record `{id, trajectory}`. -/
structure Balloon where
  id : String
  trajectory : List TrajPoint
deriving DecidableEq

/-- The balloons object, as the ordered entry list `Object.entries`
iterates over. -/
abbrev BalloonsMap := List (String × Balloon)

/-- The display fields of a storm's `properties` object. -/
structure StormProps where
  headline : Option String
  description : Option String
  severity : Option String
  event : Option String
  areaDesc : Option String
deriving DecidableEq

/-- A storm's `geometry` member (always treated as a Polygon by
`App.jsx`, which passes `storm.geometry.coordinates` to `turf.polygon`). -/
structure StormGeometry where
  coordinates : List (List Pos)
deriving DecidableEq

/-- One storm feature of the storms array. -/
structure Storm where
  id : String
  properties : StormProps
  geometry : Option StormGeometry
deriving DecidableEq

/-- The constant `monitoringDistance = 100` (kilometers) of the proximity
analysis effect. -/
def monitoringDistance : Frac := 100

/-- The position `[point.lon, point.lat]` passed to `turf.point`. -/
def ptPos (pt : TrajPoint) : Pos := (pt.lon, pt.lat)

/-! ### The proximity analysis effect (`App.jsx` lines 207-237)

For each balloon the code evaluates `storms.some(storm => ...)`: a storm
without geometry yields `false`; otherwise `turf.polygon` may throw
(modelled as `Except.error`), else the storm polygon is buffered and each
trajectory point is tested until a hit.  An uncaught throw aborts the
whole effect, so the entire pass is an `Except`. -/

/-- The body of `storms.some` for one balloon and one storm. -/
def checkStorm (balloon : Balloon) (storm : Storm) : Except String Bool :=
  match storm.geometry with
  | none => .ok false
  | some g =>
    match turfPolygon g.coordinates with
    | .error e => .error e
    | .ok rings =>
        .ok (balloon.trajectory.any fun pt =>
          pointInBufferedPolygon rings (ptPos pt) monitoringDistance)

/-- `Array.prototype.some` over a callback that can throw: stops at the
first `true` or the first exception. -/
def someE {α ε : Type} (f : α → Except ε Bool) : List α → Except ε Bool
  | [] => .ok false
  | x :: xs =>
    match f x with
    | .error e => .error e
    | .ok true => .ok true
    | .ok false => someE f xs

/-- The proximity analysis pass: the list of balloon ids pushed into
`monitoring`, in `Object.entries` order, or the first uncaught exception. -/
def classify (balloons : BalloonsMap) (storms : List Storm) : Except String (List String) :=
  match balloons with
  | [] => .ok []
  | (bid, b) :: rest =>
    match someE (checkStorm b) storms with
    | .error e => .error e
    | .ok true =>
      match classify rest storms with
      | .error e => .error e
      | .ok l => .ok (bid :: l)
    | .ok false => classify rest storms

/-- The instrumented step of `storms.some` for one balloon and one storm:
the second component counts the `turf.buffer` computations this step
performs (one when the storm has geometry and `turf.polygon` does not
throw, zero otherwise). -/
def checkStormCounted (balloon : Balloon) (storm : Storm) : Except String (Bool × Nat) :=
  match storm.geometry with
  | none => .ok (false, 0)
  | some g =>
    match turfPolygon g.coordinates with
    | .error e => .error e
    | .ok rings =>
        .ok (balloon.trajectory.any (fun pt =>
          pointInBufferedPolygon rings (ptPos pt) monitoringDistance), 1)

/-- `Array.prototype.some` instrumented with the buffer-computation count
of the steps it actually evaluates. -/
def someECounted {α ε : Type} (f : α → Except ε (Bool × Nat)) : List α → Except ε (Bool × Nat)
  | [] => .ok (false, 0)
  | x :: xs =>
    match f x with
    | .error e => .error e
    | .ok (true, c) => .ok (true, c)
    | .ok (false, c) =>
      match someECounted f xs with
      | .error e => .error e
      | .ok (b, c2) => .ok (b, c + c2)

/-- The proximity analysis pass instrumented with the total number of
`turf.buffer` computations it performs. -/
def classifyCounted (balloons : BalloonsMap) (storms : List Storm) :
    Except String (List String × Nat) :=
  match balloons with
  | [] => .ok ([], 0)
  | (bid, b) :: rest =>
    match someECounted (checkStormCounted b) storms with
    | .error e => .error e
    | .ok (m, c) =>
      match classifyCounted rest storms with
      | .error e => .error e
      | .ok (l, c2) => .ok (if m then bid :: l else l, c + c2)

/-! ### Demo data generation (`App.jsx` lines 109-182)

`generateDemoData` draws from `Math.random()`; the stream of its return
values is modelled as an oracle `rand : Nat → Frac` consumed in call
order (three calls per trajectory point: latitude, longitude, altitude).
`Date.now()` is the millisecond timestamp `now`. -/

/-- The three seed regions of the demo balloons. -/
def balloonRegions : List (Frac × Frac) :=
  [(29.0, -90.0), (27.5, -82.5), (31.0, -81.0)]

/-- One trajectory point of demo balloon `i` at hour `j`. -/
def demoPoint (rand : Nat → Frac) (now : Frac) (i j : Nat) : TrajPoint :=
  let region := balloonRegions.getD i (0, 0)
  let timeProgress : Frac := ⟨(j : Int), 24⟩
  let drift := timeProgress * 2.0
  let k := 3 * (i * 24 + j)
  { lat := region.1 + (rand k - 0.5) * 1.0
    lon := region.2 + drift + (rand (k + 1) - 0.5) * 0.8
    alt := 15000 + rand (k + 2) * 5000
    timestamp := now - ⟨((24 - j : Nat) : Int), 1⟩ * 3600000 }

/-- Demo balloon `i` with its 24-hour trajectory. -/
def demoBalloon (rand : Nat → Frac) (now : Frac) (i : Nat) : Balloon :=
  ⟨"balloon_" ++ toString i, (List.range 24).map (demoPoint rand now i)⟩

/-- The fixed demo storm `storm_1`. -/
def demoStorm1 : Storm :=
  ⟨"storm_1",
   ⟨some "Hurricane Helena - Category 2",
    some "Hurricane Helena is moving northwest at 12 mph with maximum sustained winds of 105 mph.",
    some "Extreme", some "Hurricane Warning", some "Gulf of Mexico"⟩,
   some ⟨[[(-92.0, 27.0), (-92.0, 30.0), (-89.0, 30.0), (-89.0, 27.0), (-92.0, 27.0)]]⟩⟩

/-- The fixed demo storm `storm_2`. -/
def demoStorm2 : Storm :=
  ⟨"storm_2",
   ⟨some "Tropical Storm Isaac - Category 1",
    some "Tropical Storm Isaac continues to strengthen over the Atlantic with winds of 65 mph.",
    some "Moderate", some "Tropical Storm Warning", some "Atlantic Ocean"⟩,
   some ⟨[[(-78.0, 31.0), (-78.0, 34.0), (-75.0, 34.0), (-75.0, 31.0), (-78.0, 31.0)]]⟩⟩

/-- The balloons object and storms array returned by `generateDemoData`. -/
structure DemoData where
  balloons : BalloonsMap
  storms : List Storm
deriving DecidableEq

/-- Model of `generateDemoData`: three demo balloons `balloon_0`,
`balloon_1`, `balloon_2` and the two fixed demo storms. -/
def generateDemoData (rand : Nat → Frac) (now : Frac) : DemoData :=
  ⟨(List.range 3).map (fun i => ("balloon_" ++ toString i, demoBalloon rand now i)),
   [demoStorm1, demoStorm2]⟩

/-! ### The data fetching effect (`App.jsx` lines 43-81) -/

/-- A settled `fetch` response: the `ok` flag and the already parsed JSON
body. -/
structure FetchResponse (α : Type) where
  ok : Bool
  data : α
deriving DecidableEq

/-- The pieces of component state that `fetchData` writes. -/
structure AppDataState where
  balloons : Option BalloonsMap
  storms : Option (List Storm)
  error : Option String
  loading : Bool
deriving DecidableEq

/-- One round of `fetchData`.  `none` for a response models a rejected
`fetch` promise (the `Promise.all` then rejects and control reaches the
`catch` block); with both responses settled, a non-`ok` flag on either
one throws into the same `catch` block, which replaces both datasets with
freshly generated demo data and clears the error. -/
def fetchDataStep (balloonsResp : Option (FetchResponse BalloonsMap))
    (stormsResp : Option (FetchResponse (List Storm)))
    (rand : Nat → Frac) (now : Frac) (st : AppDataState) : AppDataState :=
  match balloonsResp, stormsResp with
  | some br, some sr =>
    if br.ok && sr.ok then
      { st with balloons := some br.data, storms := some sr.data,
                error := none, loading := false }
    else
      let demo := generateDemoData rand now
      { st with balloons := some demo.balloons, storms := some demo.storms,
                error := none, loading := false }
  | _, _ =>
      let demo := generateDemoData rand now
      { st with balloons := some demo.balloons, storms := some demo.storms,
                error := none, loading := false }

/-- Whether a fetched source succeeded: its promise settled and its
response was `ok`. -/
def respOk {α : Type} : Option (FetchResponse α) → Bool
  | some r => r.ok
  | none => false

/-! ### The display filters (`App.jsx` lines 185-204 and 261-275)

`getFilteredBalloons` computes
`Math.max(1, Math.floor(trajectory.length * (selectedTime / 100)))` in
IEEE-754 binary64 arithmetic, and the two roundings (of
`selectedTime / 100`, then of the product) are observable: at length 50
and `selectedTime` 58 the product is `28.999999999999996`, whose floor
is 28 although the exact floor of `50 * 58/100` is 29.  The model
therefore rounds exactly as binary64 does.  A nonnegative double is
represented as a mantissa/scale pair `(m, s)` of value `m / 2^s`;
`roundDoubleMS n d` rounds the rational `n / d` to the nearest double
(ties to even) by locating the binade of `n / d` through base-2
logarithms and round-half-even division of integers.  Exponent overflow
and subnormals are outside the reachable range (the slider ratio lies in
`[0, 1]`, array lengths are below `2^32`) and are not modelled. -/

/-- Fuelled base-2 logarithm on naturals (the fuel makes the recursion
structural; `natLog2` instantiates it with enough fuel). -/
def natLog2F : Nat → Nat → Nat
  | 0, _ => 0
  | fuel + 1, n => if n ≤ 1 then 0 else natLog2F fuel (n / 2) + 1

/-- Base-2 logarithm: for `n ≥ 1`, the unique `k` with
`2^k ≤ n < 2^(k+1)`. -/
def natLog2 (n : Nat) : Nat := natLog2F n n

/-- Round-half-even integer division: the integer nearest to `a / d`,
ties going to the even candidate. -/
def rheDiv (a d : Nat) : Nat :=
  if 2 * (a % d) < d then a / d
  else if d < 2 * (a % d) then a / d + 1
  else if (a / d) % 2 = 0 then a / d else a / d + 1

/-- One more than the binade exponent of `n / d` relative to the
denominator's logarithm: for positive `n`, `d` the binade exponent `e`
of `n / d` (the unique integer with `2^e ≤ n/d < 2^(e+1)`) equals
`rdExp n d - natLog2 d - 1`; the shifted form keeps every quantity a
natural number. -/
def rdExp (n d : Nat) : Nat :=
  natLog2 n + (if d * 2 ^ natLog2 n ≤ n * 2 ^ natLog2 d then 1 else 0)

/-- Round the nonnegative rational `n / d` to the nearest binary64
value (round to nearest, ties to even), returned as a mantissa/scale
pair of value `m / 2^s`: the mantissa is the round-half-even quotient
after scaling the value to 53 significant bits.  The second branch
(values at or above `2^53`, where the scale would be negative) returns
the rounded integer with scale 0. -/
def roundDoubleMS (n d : Nat) : Nat × Nat :=
  if n = 0 ∨ d = 0 then (0, 0)
  else if rdExp n d ≤ 53 + natLog2 d then
    (rheDiv (n * 2 ^ (53 + natLog2 d - rdExp n d)) d, 53 + natLog2 d - rdExp n d)
  else
    (rheDiv n (d * 2 ^ (rdExp n d - (53 + natLog2 d))) * 2 ^ (rdExp n d - (53 + natLog2 d)),
     0)

/-- The target prefix length of `getFilteredBalloons` for a trajectory
of length `len` at slider value `t`, computed as the program does:
`Math.max(1, Math.floor(len * (t / 100)))` over binary64 doubles —
round `t / 100` to a double, multiply by `len` and round again, take
the floor, clamp to at least 1. -/
def jsTargetLength (len t : Nat) : Nat :=
  max 1
    ((roundDoubleMS (len * (roundDoubleMS t 100).1) (2 ^ (roundDoubleMS t 100).2)).1 /
      2 ^ (roundDoubleMS (len * (roundDoubleMS t 100).1) (2 ^ (roundDoubleMS t 100).2)).2)

/-- Model of `getFilteredBalloons`.  The slider value `selectedTime` is
the integer 0-100 produced by `TimeSlider`; the target length follows
the binary64 semantics of `jsTargetLength`.  The JavaScript code builds
a fresh object with a fresh `slice` of each trajectory; the model is
accordingly a pure function of its input. -/
def getFilteredBalloons (balloons : Option BalloonsMap) (selectedTime : Nat) :
    Option BalloonsMap :=
  match balloons with
  | none => none
  | some bs =>
    if selectedTime == 100 then some bs
    else
      some (bs.map fun e =>
        let targetLength := jsTargetLength e.2.trajectory.length selectedTime
        (e.1, { e.2 with trajectory := e.2.trajectory.take targetLength }))

/-- The `stormFilters` component state (severity and event-type flag
objects modelled as association lists). -/
structure StormFilters where
  severity : List (String × Bool)
  eventType : List (String × Bool)
  showAll : Bool
deriving DecidableEq

/-- Lookup of `flags[key] || false`. -/
def lookupFlag (flags : List (String × Bool)) (key : String) : Bool :=
  match flags.lookup key with
  | some b => b
  | none => false

/-- Model of `getFilteredStorms`. -/
def getFilteredStorms (storms : Option (List Storm)) (filters : StormFilters) :
    Option (List Storm) :=
  match storms with
  | none => none
  | some ss =>
    if filters.showAll then some ss
    else
      some (ss.filter fun storm =>
        let severity := storm.properties.severity.getD "Unknown"
        let severityMatch := lookupFlag filters.severity severity
        let eventTypeMatch :=
          match storm.properties.event with
          | some ev => lookupFlag filters.eventType ev
          | none => true
        severityMatch && eventTypeMatch)

/-- The component state the proximity analysis effect and the render path
read from. -/
structure AppState where
  balloons : Option BalloonsMap
  storms : Option (List Storm)
  selectedTime : Nat
  stormFilters : StormFilters

/-- The monitoring set computed by the proximity analysis effect: its
dependency array is `[balloons, storms]`, and with either dataset still
`null` it resets the set to `[]`. -/
def monitoringOf (st : AppState) : Except String (List String) :=
  match st.balloons, st.storms with
  | some bs, some ss => classify bs ss
  | _, _ => .ok []

/-! ### The TTL cache with stampede protection

Modelled from the spec: the TTL cache of §4.3 is backend code of this
repository that is not under `src/` (the dashboards only call its HTTP
endpoints), so its coalescing algorithm is modelled from the spec's
words: a per-key entry with an expiry, a single refresh-in-flight flag
set atomically with the expiry check, callers joining the in-flight
refresh as waiters, and the refresh resolution publishing one snapshot to
every waiter.  Concurrency is modelled as an arbitrary interleaving of
atomic `cacheGet` steps followed by the refresh resolution. -/
structure CacheState (σ : Type) where
  entry : Option (σ × Nat)
  inFlight : Bool
  waiters : Nat
  fetchCalls : Nat

/-- What one caller observes from `get`: an immediately served fresh
snapshot, or joining the in-flight refresh. -/
inductive GetOutcome (σ : Type) where
  | served (snapshot : σ)
  | awaiting

/-- Modelled from the spec: a caller finding no fresh entry joins the
refresh; the first such caller (and only it) invokes the Fetcher. -/
def joinRefresh {σ : Type} (st : CacheState σ) : CacheState σ × GetOutcome σ :=
  if st.inFlight then
    ({ st with waiters := st.waiters + 1 }, .awaiting)
  else
    ({ st with inFlight := true, waiters := st.waiters + 1,
               fetchCalls := st.fetchCalls + 1 }, .awaiting)

/-- Modelled from the spec: one atomic `get` step at time `now` — a fresh
entry is served immediately, otherwise the caller joins the (possibly
new) in-flight refresh. -/
def cacheGet {σ : Type} (now : Nat) (st : CacheState σ) : CacheState σ × GetOutcome σ :=
  match st.entry with
  | some (s, expiresAt) =>
    if now < expiresAt then (st, .served s)
    else joinRefresh st
  | none => joinRefresh st

/-- `m` concurrent callers performing their `get` steps in sequence (the
per-key mutual exclusion point serialises them in some order). -/
def iterGet {σ : Type} (now : Nat) : Nat → CacheState σ → CacheState σ
  | 0, st => st
  | m + 1, st => iterGet now m (cacheGet now st).1

/-- Modelled from the spec: the in-flight refresh resolves with
`snapshot`, replacing the entry wholesale and delivering that same
snapshot to each of the recorded waiters (returned as the waiter count
paired with the snapshot they all receive). -/
def cacheResolve {σ : Type} (snapshot : σ) (ttl now : Nat) (st : CacheState σ) :
    CacheState σ × (Nat × σ) :=
  ({ entry := some (snapshot, now + ttl), inFlight := false, waiters := 0,
     fetchCalls := st.fetchCalls }, (st.waiters, snapshot))

/-- The entry is cold at `now`: absent, or already expired. -/
def coldEntry {σ : Type} (now : Nat) : Option (σ × Nat) → Bool
  | some (_, expiresAt) => decide (expiresAt ≤ now)
  | none => true

/-! ### Concrete data used to instantiate the claims -/

/-- A trajectory point at the given latitude and longitude. -/
def mkPt (lat lon : Frac) : TrajPoint := ⟨lat, lon, 15000, 0⟩

/-- A storm property record with no display fields. -/
def noProps : StormProps := ⟨none, none, none, none, none⟩

/-- The balloon of the spec's scenario: three points ending at
latitude 29.0, longitude -90.0. -/
def balloonB1 : Balloon := ⟨"B1", [mkPt 28.4 (-89.6), mkPt 28.7 (-89.8), mkPt 29.0 (-90.0)]⟩

/-- The scenario's balloons object. -/
def scenarioBalloons : BalloonsMap := [("B1", balloonB1)]

/-- The scenario hazard: a polygon covering latitudes 28-30 and
longitudes -91 to -89. -/
def hazardNear : Storm :=
  ⟨"H1", noProps, some ⟨[[(-91, 28), (-91, 30), (-89, 30), (-89, 28), (-91, 28)]]⟩⟩

/-- The scenario hazard moved to latitudes 10-12, longitudes 100-102. -/
def hazardFar : Storm :=
  ⟨"H1", noProps, some ⟨[[(100, 10), (100, 12), (102, 12), (102, 10), (100, 10)]]⟩⟩

/-- A balloon inside the near hazard. -/
def wBalloon : Balloon := ⟨"w1", [mkPt 29.5 (-90.5)]⟩

/-- Another balloon inside the near hazard. -/
def mBalloon : Balloon := ⟨"m1", [mkPt 29.2 (-90.2)]⟩

/-- A balloon far from every test hazard. -/
def farBalloon1 : Balloon := ⟨"far1", [mkPt 0 0]⟩

/-- Another balloon far from every test hazard. -/
def farBalloon2 : Balloon := ⟨"far2", [mkPt 1 1]⟩

/-- A malformed polygon geometry: its ring has only three positions, so
`turf.polygon` throws on it. -/
def badGeometry : StormGeometry := ⟨[[(0, 0), (1, 1), (0, 0)]]⟩

/-- A hazard carrying the malformed polygon geometry. -/
def stormMalformed : Storm := ⟨"bad1", noProps, some badGeometry⟩

/-- A hazard with no geometry at all. -/
def noGeomStorm : Storm := ⟨"nogeo1", noProps, none⟩

/-- A constant `Math.random()` oracle. -/
def randHalf : Nat → Frac := fun _ => 0.5

/-- A prior component state holding an earlier snapshot (one balloon
"X", no storms). -/
def prevStateC2 : AppDataState := ⟨some [("X", ⟨"X", []⟩)], some [], none, false⟩

/-- The initial component state before any fetch completes. -/
def initState : AppDataState := ⟨none, none, none, true⟩

/-- The initial storm filters of `App.jsx` (all severities on, show
all). -/
def filtersAll : StormFilters :=
  ⟨[("Extreme", true), ("Severe", true), ("Moderate", true), ("Minor", true),
    ("Unknown", true)], [], true⟩

/-- A restrictive filter selection. -/
def filtersExtremeOnly : StormFilters := ⟨[("Extreme", true)], [], false⟩

/-- An application state with the slider at 100 and permissive filters. -/
def stateA : AppState := ⟨some scenarioBalloons, some [hazardNear], 100, filtersAll⟩

/-- The same data with the slider at 30 and restrictive filters. -/
def stateB : AppState := ⟨some scenarioBalloons, some [hazardNear], 30, filtersExtremeOnly⟩

/-- A balloon with a two-point trajectory for the time filter. -/
def wFilteredBalloon : Balloon := ⟨"wb", [mkPt 10 10, mkPt 11 11]⟩

/-- A cold cache state over natural-number snapshots. -/
def coldCache : CacheState Nat := ⟨none, false, 0, 0⟩

/-- A balloon with a 50-point trajectory, exhibiting the binary64
rounding of the time filter at slider value 58. -/
def fiftyBalloon : Balloon := ⟨"L50", (List.range 50).map fun _ => mkPt 10 10⟩

/-! ### Lemmas about the `some` fold and the classification pass -/

/-- When the `some` fold completes with `false`, every callback returned
`false`. -/
theorem someE_eq_false_forall {α ε : Type} {f : α → Except ε Bool} :
    ∀ {l : List α}, someE f l = .ok false → ∀ x ∈ l, f x = .ok false := by
  intro l
  induction l with
  | nil => intro _ x hx; cases hx
  | cons a l ih =>
    intro h x hx
    cases hfa : f a with
    | error e => simp [someE, hfa] at h
    | ok m =>
      cases m with
      | true => simp [someE, hfa] at h
      | false =>
        simp only [someE, hfa] at h
        cases hx with
        | head => exact hfa
        | tail _ hxl => exact ih h x hxl

/-- When the `some` fold completes with `true`, some callback returned
`true`. -/
theorem someE_eq_true_exists {α ε : Type} {f : α → Except ε Bool} :
    ∀ {l : List α}, someE f l = .ok true → ∃ x ∈ l, f x = .ok true := by
  intro l
  induction l with
  | nil => intro h; simp [someE] at h
  | cons a l ih =>
    intro h
    cases hfa : f a with
    | error e => simp [someE, hfa] at h
    | ok m =>
      cases m with
      | true => exact ⟨a, List.mem_cons_self a l, hfa⟩
      | false =>
        simp only [someE, hfa] at h
        obtain ⟨x, hx, hfx⟩ := ih h
        exact ⟨x, List.mem_cons_of_mem a hx, hfx⟩

/-- A callback returning `false` can be dropped from the list without
changing the `some` fold. -/
theorem someE_middle_false {α ε : Type} {f : α → Except ε Bool} {x : α}
    (hx : f x = .ok false) :
    ∀ (s1 s2 : List α), someE f (s1 ++ x :: s2) = someE f (s1 ++ s2) := by
  intro s1
  induction s1 with
  | nil => intro s2; simp [someE, hx]
  | cons a s1 ih =>
    intro s2
    simp only [List.cons_append, someE]
    cases hfa : f a with
    | error e => rfl
    | ok m => cases m with
      | true => rfl
      | false => exact ih s2

/-- When the pass completes, every balloon's `some` fold completed. -/
theorem classify_ok_entries {storms : List Storm} :
    ∀ {balloons : BalloonsMap} {s : List String},
      classify balloons storms = .ok s →
      ∀ p ∈ balloons, ∃ m, someE (checkStorm p.2) storms = .ok m := by
  intro balloons
  induction balloons with
  | nil => intro s _ p hp; cases hp
  | cons q rest ih =>
    obtain ⟨bid0, b0⟩ := q
    intro s h p hp
    cases hs0 : someE (checkStorm b0) storms with
    | error e => simp [classify, hs0] at h
    | ok m0 =>
      have hrest : ∃ s', classify rest storms = .ok s' := by
        cases m0 with
        | true =>
          simp only [classify, hs0] at h
          cases hr : classify rest storms with
          | error e => rw [hr] at h; simp at h
          | ok l => exact ⟨l, rfl⟩
        | false =>
          simp only [classify, hs0] at h
          exact ⟨s, h⟩
      obtain ⟨s', hs'⟩ := hrest
      cases hp with
      | head => exact ⟨m0, hs0⟩
      | tail _ hprest => exact ih hs' p hprest

/-- Membership in the monitoring list, characterised entry by entry. -/
theorem classify_mem_char {storms : List Storm} :
    ∀ {balloons : BalloonsMap} {s : List String},
      classify balloons storms = .ok s → ∀ bid : String,
      (bid ∈ s ↔ ∃ b, (bid, b) ∈ balloons ∧ someE (checkStorm b) storms = .ok true) := by
  intro balloons
  induction balloons with
  | nil =>
    intro s h bid
    simp only [classify] at h
    simp only [Except.ok.injEq] at h
    subst h
    simp
  | cons q rest ih =>
    obtain ⟨bid0, b0⟩ := q
    intro s h bid
    cases hs0 : someE (checkStorm b0) storms with
    | error e => simp [classify, hs0] at h
    | ok m0 =>
      cases m0 with
      | true =>
        simp only [classify, hs0] at h
        cases hr : classify rest storms with
        | error e => rw [hr] at h; simp at h
        | ok l =>
          rw [hr] at h
          simp only [Except.ok.injEq] at h
          subst h
          have ihbid := ih hr bid
          simp only [List.mem_cons]
          constructor
          · rintro (rfl | hbidl)
            · exact ⟨b0, Or.inl rfl, hs0⟩
            · obtain ⟨b, hb, hsome⟩ := ihbid.mp hbidl
              exact ⟨b, Or.inr hb, hsome⟩
          · rintro ⟨b, hb | hb, hsome⟩
            · simp only [Prod.mk.injEq] at hb
              exact Or.inl hb.1
            · exact Or.inr (ihbid.mpr ⟨b, hb, hsome⟩)
      | false =>
        simp only [classify, hs0] at h
        have ihbid := ih h bid
        rw [ihbid]
        constructor
        · rintro ⟨b, hb, hsome⟩
          exact ⟨b, List.mem_cons_of_mem _ hb, hsome⟩
        · rintro ⟨b, hb, hsome⟩
          rcases List.mem_cons.mp hb with heq | hbrest
          · simp only [Prod.mk.injEq] at heq
            obtain ⟨h1, h2⟩ := heq
            subst h2
            rw [hs0] at hsome
            simp at hsome
          · exact ⟨b, hbrest, hsome⟩

/-- The per-storm callback returns `true` exactly when the storm has a
geometry that validates and some trajectory point lies in its buffer. -/
theorem checkStorm_eq_true_iff {b : Balloon} {storm : Storm} :
    checkStorm b storm = .ok true ↔
      ∃ g rings, storm.geometry = some g ∧ turfPolygon g.coordinates = .ok rings ∧
        ∃ pt ∈ b.trajectory,
          pointInBufferedPolygon rings (ptPos pt) monitoringDistance = true := by
  cases hg : storm.geometry with
  | none =>
    simp only [checkStorm, hg]
    constructor
    · intro h; simp at h
    · rintro ⟨g, rings, hsome, _⟩; cases hsome
  | some g =>
    cases hpoly : turfPolygon g.coordinates with
    | error e =>
      simp only [checkStorm, hg, hpoly]
      constructor
      · intro h; simp at h
      · rintro ⟨g', rings, hsome, hp, _⟩
        rw [Option.some.injEq] at hsome
        subst hsome
        rw [hpoly] at hp
        simp at hp
    | ok rings =>
      simp only [checkStorm, hg, hpoly, Except.ok.injEq]
      constructor
      · intro h
        obtain ⟨pt, hpt, hbuf⟩ := List.any_eq_true.mp h
        exact ⟨g, rings, rfl, hpoly, pt, hpt, hbuf⟩
      · rintro ⟨g', rings', hsome, hp, pt, hpt, hbuf⟩
        rw [Option.some.injEq] at hsome
        subst hsome
        rw [hpoly] at hp
        simp only [Except.ok.injEq] at hp
        subst hp
        exact List.any_eq_true.mpr ⟨pt, hpt, hbuf⟩

/-! ### Claim theorems -/

/-- Claim C1: whenever the proximity analysis pass completes with a
monitoring set, a trajectory id is in that set iff at least one point of
its trajectory lies within the 100 km buffered region of at least one
hazard's polygon — an existential over the trajectory's points and over
the hazards. -/
theorem classify_monitoring_iff (balloons : BalloonsMap) (storms : List Storm)
    (s : List String) (h : classify balloons storms = .ok s) (bid : String) :
    bid ∈ s ↔ ∃ b, (bid, b) ∈ balloons ∧ ∃ storm ∈ storms, ∃ g rings,
      storm.geometry = some g ∧ turfPolygon g.coordinates = .ok rings ∧
      ∃ pt ∈ b.trajectory,
        pointInBufferedPolygon rings (ptPos pt) monitoringDistance = true := by
  rw [classify_mem_char h bid]
  constructor
  · rintro ⟨b, hb, hsome⟩
    obtain ⟨storm, hst, hck⟩ := someE_eq_true_exists hsome
    obtain ⟨g, rings, hg, hpoly, pt, hpt, hbuf⟩ := checkStorm_eq_true_iff.mp hck
    exact ⟨b, hb, storm, hst, g, rings, hg, hpoly, pt, hpt, hbuf⟩
  · rintro ⟨b, hb, storm, hst, g, rings, hg, hpoly, pt, hpt, hbuf⟩
    refine ⟨b, hb, ?_⟩
    obtain ⟨m, hm⟩ := classify_ok_entries h (bid, b) hb
    cases m with
    | true => exact hm
    | false =>
      have hfalse := someE_eq_false_forall hm storm hst
      rw [checkStorm_eq_true_iff.mpr ⟨g, rings, hg, hpoly, pt, hpt, hbuf⟩] at hfalse
      simp at hfalse

/-- Witness for C1 at a concrete input on which the pass returns
`["w1"]`. -/
theorem classify_monitoring_iff_witness :
    "w1" ∈ ["w1"] ↔ ∃ b, ("w1", b) ∈ [("w1", wBalloon)] ∧ ∃ storm ∈ [hazardNear],
      ∃ g rings, storm.geometry = some g ∧ turfPolygon g.coordinates = .ok rings ∧
      ∃ pt ∈ b.trajectory,
        pointInBufferedPolygon rings (ptPos pt) monitoringDistance = true :=
  classify_monitoring_iff [("w1", wBalloon)] [hazardNear] ["w1"] (by decide) "w1"

/-- Claim C9: every id of the monitoring set is a key of the balloons
object, its matching balloon has a non-empty trajectory, and some hazard
with geometry is present in the storms list — so an empty-trajectory
balloon is never included, and geometry-less hazards alone never produce
membership. -/
theorem classify_monitoring_invariants (balloons : BalloonsMap) (storms : List Storm)
    (s : List String) (h : classify balloons storms = .ok s) (bid : String)
    (hbid : bid ∈ s) :
    ∃ b, (bid, b) ∈ balloons ∧ b.trajectory ≠ [] ∧
      ∃ storm ∈ storms, storm.geometry ≠ none := by
  obtain ⟨b, hb, hsome⟩ := (classify_mem_char h bid).mp hbid
  obtain ⟨storm, hst, hck⟩ := someE_eq_true_exists hsome
  obtain ⟨g, rings, hg, hpoly, pt, hpt, hbuf⟩ := checkStorm_eq_true_iff.mp hck
  exact ⟨b, hb, List.ne_nil_of_mem hpt, storm, hst, by rw [hg]; simp⟩

/-- Witness for C9 at a concrete input on which the pass returns
`["m1"]`. -/
theorem classify_monitoring_invariants_witness :
    ∃ b, ("m1", b) ∈ [("m1", mBalloon)] ∧ b.trajectory ≠ [] ∧
      ∃ storm ∈ [hazardNear], storm.geometry ≠ none :=
  classify_monitoring_invariants [("m1", mBalloon)] [hazardNear] ["m1"] (by decide)
    "m1" (by decide)

/-- Claim C7: on the spec's scenario, the monitoring set is exactly
`["B1"]` for the hazard covering latitudes 28-30 / longitudes -91 to
-89, and empty for the hazard moved to latitudes 10-12 / longitudes
100-102. -/
theorem scenario_monitoring_sets :
    classify scenarioBalloons [hazardNear] = .ok ["B1"] ∧
    classify scenarioBalloons [hazardFar] = .ok [] :=
  ⟨by decide, by decide⟩

/-- Counterexample for C4: with a malformed hazard present, the pass
throws (the `turf.polygon` error propagates out of the effect) instead
of skipping that hazard and classifying against the remaining
well-formed ones. -/
theorem classify_malformed_not_skipped :
    classify [("far1", farBalloon1)] [stormMalformed, hazardNear] =
      .error "Each LinearRing of a Polygon must have 4 or more Positions." := by
  decide

/-- Claim C4 (amended): a hazard with absent geometry is skipped without
affecting the result, but a hazard whose polygon coordinates fail
`turf.polygon` validation makes the whole classification pass throw as
soon as it is examined. -/
theorem classify_geometry_error_handling :
    (∀ (balloons : BalloonsMap) (s1 s2 : List Storm) (storm : Storm),
        storm.geometry = none →
        classify balloons (s1 ++ storm :: s2) = classify balloons (s1 ++ s2)) ∧
    (∀ (bid : String) (b : Balloon) (rest : BalloonsMap) (storm : Storm)
        (g : StormGeometry) (e : String) (storms2 : List Storm),
        storm.geometry = some g → turfPolygon g.coordinates = .error e →
        classify ((bid, b) :: rest) (storm :: storms2) = .error e) := by
  constructor
  · intro balloons s1 s2 storm hgeom
    have hck : ∀ b : Balloon, checkStorm b storm = .ok false := by
      intro b; simp [checkStorm, hgeom]
    induction balloons with
    | nil => rfl
    | cons p rest ih =>
      obtain ⟨bid, b⟩ := p
      simp only [classify]
      rw [someE_middle_false (hck b), ih]
  · intro bid b rest storm g e storms2 hg hpoly
    simp [classify, someE, checkStorm, hg, hpoly]

/-- Witness for C4 at concrete inputs for both conjuncts. -/
theorem classify_geometry_error_handling_witness :
    (classify [("w1", wBalloon)] ([hazardNear] ++ noGeomStorm :: [hazardFar]) =
       classify [("w1", wBalloon)] ([hazardNear] ++ [hazardFar])) ∧
    (classify [("far1", farBalloon1)] [stormMalformed] =
       .error "Each LinearRing of a Polygon must have 4 or more Positions.") :=
  ⟨classify_geometry_error_handling.1 [("w1", wBalloon)] [hazardNear] [hazardFar]
      noGeomStorm rfl,
   classify_geometry_error_handling.2 "far1" farBalloon1 [] stormMalformed badGeometry
      "Each LinearRing of a Polygon must have 4 or more Positions." [] rfl (by decide)⟩

/-- The per-storm instrumented callback performs at most one buffer
computation. -/
theorem checkStormCounted_cost_le_one {b : Balloon} {storm : Storm} {m : Bool} {c : Nat}
    (h : checkStormCounted b storm = .ok (m, c)) : c ≤ 1 := by
  cases hg : storm.geometry with
  | none =>
    simp only [checkStormCounted, hg, Except.ok.injEq, Prod.mk.injEq] at h
    omega
  | some g =>
    cases hpoly : turfPolygon g.coordinates with
    | error e => simp [checkStormCounted, hg, hpoly] at h
    | ok rings =>
      simp only [checkStormCounted, hg, hpoly, Except.ok.injEq, Prod.mk.injEq] at h
      omega

/-- The instrumented `some` fold performs at most one buffer computation
per list element. -/
theorem someECounted_cost_le {α ε : Type} {f : α → Except ε (Bool × Nat)}
    (hbound : ∀ x m c, f x = .ok (m, c) → c ≤ 1) :
    ∀ {l : List α} {m : Bool} {c : Nat}, someECounted f l = .ok (m, c) → c ≤ l.length := by
  intro l
  induction l with
  | nil =>
    intro m c h
    simp only [someECounted, Except.ok.injEq, Prod.mk.injEq] at h
    omega
  | cons a l ih =>
    intro m c h
    cases hfa : f a with
    | error e => simp [someECounted, hfa] at h
    | ok p =>
      obtain ⟨m0, c0⟩ := p
      have hc0 : c0 ≤ 1 := hbound a m0 c0 hfa
      cases m0 with
      | true =>
        simp only [someECounted, hfa, Except.ok.injEq, Prod.mk.injEq] at h
        simp only [List.length_cons]
        omega
      | false =>
        simp only [someECounted, hfa] at h
        cases hrec : someECounted f l with
        | error e => rw [hrec] at h; simp at h
        | ok q =>
          obtain ⟨m1, c1⟩ := q
          rw [hrec] at h
          simp only [Except.ok.injEq, Prod.mk.injEq] at h
          have hc1 := ih hrec
          simp only [List.length_cons]
          omega

/-- Counterexample for C6: two balloons against one hazard make the pass
perform two buffer computations, not one per hazard. -/
theorem buffer_computed_per_pair :
    classifyCounted [("far1", farBalloon1), ("far2", farBalloon2)] [hazardNear] =
      .ok ([], 2) ∧ ([hazardNear] : List Storm).length = 1 :=
  ⟨by decide, rfl⟩

/-- Claim C6 (amended): the buffered region is recomputed for each
(trajectory, hazard) pair the pass examines — the total number of buffer
computations is bounded by trajectories × hazards, not by the number of
hazards. -/
theorem classifyCounted_buffer_bound (balloons : BalloonsMap) (storms : List Storm)
    (s : List String) (n : Nat) (h : classifyCounted balloons storms = .ok (s, n)) :
    n ≤ balloons.length * storms.length := by
  induction balloons generalizing s n with
  | nil =>
    simp only [classifyCounted, Except.ok.injEq, Prod.mk.injEq] at h
    simp only [List.length_nil]
    omega
  | cons p rest ih =>
    obtain ⟨bid, b⟩ := p
    cases hs0 : someECounted (checkStormCounted b) storms with
    | error e => simp [classifyCounted, hs0] at h
    | ok q =>
      obtain ⟨m, c⟩ := q
      have hc : c ≤ storms.length :=
        someECounted_cost_le (fun x m' c' hx => checkStormCounted_cost_le_one hx) hs0
      simp only [classifyCounted, hs0] at h
      cases hr : classifyCounted rest storms with
      | error e => rw [hr] at h; simp at h
      | ok q2 =>
        obtain ⟨l, c2⟩ := q2
        rw [hr] at h
        simp only [Except.ok.injEq, Prod.mk.injEq] at h
        have hc2 := ih l c2 hr
        simp only [List.length_cons]
        have hmul : (rest.length + 1) * storms.length =
            rest.length * storms.length + storms.length := by ring
        omega

/-- Witness for C6 at the concrete two-balloon input. -/
theorem classifyCounted_buffer_bound_witness :
    (2 : Nat) ≤ ([("far1", farBalloon1), ("far2", farBalloon2)] : BalloonsMap).length *
      ([hazardNear] : List Storm).length :=
  classifyCounted_buffer_bound [("far1", farBalloon1), ("far2", farBalloon2)]
    [hazardNear] [] 2 (by decide)

/-- Counterexample for C2: with a prior snapshot present and the refresh
round failing, the prior balloons are replaced with demo data, not
retained. -/
theorem fetch_failure_discards_prior :
    (fetchDataStep none none randHalf 0 prevStateC2).balloons ≠ prevStateC2.balloons := by
  decide

/-- Claim C2 (amended): when a refresh round fails (a rejected fetch or a
non-ok response), the catch block replaces both datasets with freshly
generated demo data and clears the error — the previously held snapshot
is discarded, not served. -/
theorem fetch_failure_serves_demo_data (balloonsResp : Option (FetchResponse BalloonsMap))
    (stormsResp : Option (FetchResponse (List Storm))) (rand : Nat → Frac) (now : Frac)
    (st : AppDataState) (h : (respOk balloonsResp && respOk stormsResp) = false) :
    fetchDataStep balloonsResp stormsResp rand now st =
      { st with balloons := some (generateDemoData rand now).balloons,
                storms := some (generateDemoData rand now).storms,
                error := none, loading := false } := by
  cases balloonsResp with
  | none => rfl
  | some br =>
    cases stormsResp with
    | none => rfl
    | some sr =>
      simp only [respOk] at h
      simp [fetchDataStep, h]

/-- Witness for C2 at the concrete failing round over a prior state. -/
theorem fetch_failure_serves_demo_data_witness :
    fetchDataStep none none randHalf 0 prevStateC2 =
      { prevStateC2 with
        balloons := some (generateDemoData randHalf 0).balloons,
        storms := some (generateDemoData randHalf 0).storms,
        error := none, loading := false } :=
  fetch_failure_serves_demo_data none none randHalf 0 prevStateC2 rfl

/-- Counterexample for C3: when the balloons source succeeds but the
storms source fails, the successful balloons records are discarded too. -/
theorem successful_source_not_kept :
    (fetchDataStep (some ⟨true, [("B1", balloonB1)]⟩) (some ⟨false, []⟩) randHalf 0
        initState).balloons ≠ some [("B1", balloonB1)] := by
  decide

/-- Claim C3 (amended): a round in which one source succeeds and the
other fails throws before either dataset is stored; both datasets are
replaced with demo data and no source error is recorded. -/
theorem partial_success_discarded (br : FetchResponse BalloonsMap)
    (sr : FetchResponse (List Storm)) (rand : Nat → Frac) (now : Frac)
    (st : AppDataState) (hb : br.ok = true) (hs : sr.ok = false) :
    fetchDataStep (some br) (some sr) rand now st =
      { st with balloons := some (generateDemoData rand now).balloons,
                storms := some (generateDemoData rand now).storms,
                error := none, loading := false } := by
  simp [fetchDataStep, hb, hs]

/-- Witness for C3 at the concrete mixed round. -/
theorem partial_success_discarded_witness :
    fetchDataStep (some ⟨true, [("B1", balloonB1)]⟩) (some ⟨false, []⟩) randHalf 0
        initState =
      { initState with
        balloons := some (generateDemoData randHalf 0).balloons,
        storms := some (generateDemoData randHalf 0).storms,
        error := none, loading := false } :=
  partial_success_discarded ⟨true, [("B1", balloonB1)]⟩ ⟨false, []⟩ randHalf 0 initState
    rfl rfl

/-- While a refresh is in flight, further `get` steps only add waiters:
no entry change, no further Fetcher calls. -/
theorem iterGet_inFlight {σ : Type} (now : Nat) :
    ∀ (k : Nat) (st : CacheState σ), st.inFlight = true →
      coldEntry now st.entry = true →
      iterGet now k st = { st with waiters := st.waiters + k } := by
  intro k
  induction k with
  | zero => intro st h1 _; simp [iterGet]
  | succ k ih =>
    intro st h1 h2
    have hstep : (cacheGet now st).1 = { st with waiters := st.waiters + 1 } := by
      unfold cacheGet
      cases hentry : st.entry with
      | none => simp [joinRefresh, h1, hentry]
      | some p =>
        obtain ⟨sv, expiresAt⟩ := p
        rw [hentry] at h2
        simp only [coldEntry, decide_eq_true_eq] at h2
        have hnlt : ¬ (now < expiresAt) := by omega
        simp [joinRefresh, h1, hnlt, hentry]
    simp only [iterGet]
    rw [hstep, ih { st with waiters := st.waiters + 1 } h1 h2]
    have harith : st.waiters + 1 + k = st.waiters + (k + 1) := by omega
    rw [harith]

/-- Claim C5 (spec-modelled): with a cold or expired entry and no refresh
in flight, `m ≥ 1` coalesced `get` steps cause exactly one Fetcher
invocation, and the refresh resolution delivers the same snapshot to all
`m` callers. -/
theorem cache_stampede_coalescing {σ : Type} (snapshot : σ) (ttl now m : Nat)
    (st : CacheState σ) (hm : 1 ≤ m) (hcold : coldEntry now st.entry = true)
    (hif : st.inFlight = false) (hw : st.waiters = 0) :
    (iterGet now m st).fetchCalls = st.fetchCalls + 1 ∧
    (cacheResolve snapshot ttl now (iterGet now m st)).2 = (m, snapshot) := by
  obtain ⟨k, rfl⟩ : ∃ k, m = k + 1 := ⟨m - 1, by omega⟩
  have hstep : (cacheGet now st).1 =
      { st with inFlight := true, waiters := st.waiters + 1,
                fetchCalls := st.fetchCalls + 1 } := by
    unfold cacheGet
    cases hentry : st.entry with
    | none => simp [joinRefresh, hif, hentry]
    | some p =>
      obtain ⟨sv, expiresAt⟩ := p
      rw [hentry] at hcold
      simp only [coldEntry, decide_eq_true_eq] at hcold
      have hnlt : ¬ (now < expiresAt) := by omega
      simp [joinRefresh, hif, hnlt, hentry]
  have hrest := iterGet_inFlight now k
    { st with inFlight := true, waiters := st.waiters + 1,
              fetchCalls := st.fetchCalls + 1 } rfl hcold
  simp only [iterGet]
  rw [hstep, hrest]
  constructor
  · rfl
  · simp only [cacheResolve, Prod.mk.injEq]
    exact ⟨by omega, trivial⟩

/-- Witness for C5: three callers on a cold cache. -/
theorem cache_stampede_coalescing_witness :
    (iterGet 0 3 coldCache).fetchCalls = 0 + 1 ∧
    (cacheResolve 42 600 0 (iterGet 0 3 coldCache)).2 = (3, 42) :=
  cache_stampede_coalescing 42 600 0 3 coldCache (by decide) rfl rfl rfl

/-- Correctness of the fuelled base-2 logarithm: with enough fuel it
returns the exponent of the binade of `n`. -/
theorem natLog2F_spec : ∀ (fuel n : Nat), n ≤ fuel → 1 ≤ n →
    2 ^ natLog2F fuel n ≤ n ∧ n < 2 ^ (natLog2F fuel n + 1) := by
  intro fuel
  induction fuel with
  | zero => intro n hn h1; omega
  | succ fuel ih =>
    intro n hn h1
    by_cases hsmall : n ≤ 1
    · have hone : n = 1 := by omega
      subst hone
      rw [show natLog2F (fuel + 1) 1 = 0 from by simp [natLog2F]]
      exact ⟨by decide, by decide⟩
    · have hdiv : n / 2 < n := Nat.div_lt_self (by omega) (by omega)
      have hrec := ih (n / 2) (by omega) (by omega)
      have hunfold : natLog2F (fuel + 1) n = natLog2F fuel (n / 2) + 1 := by
        simp [natLog2F, hsmall]
      rw [hunfold]
      obtain ⟨hl, hr⟩ := hrec
      rw [pow_succ] at hr
      constructor
      · rw [pow_succ]
        omega
      · rw [pow_succ, pow_succ]
        omega

/-- The round-half-even quotient of `a / d` never exceeds an integer
bound on `a / d` itself. -/
theorem rheDiv_le (a d K : Nat) (hd : 0 < d) (ha : a ≤ d * K) : rheDiv a d ≤ K := by
  have hq : a / d ≤ K := by
    have h1 : a / d ≤ d * K / d := Nat.div_le_div_right ha
    rwa [Nat.mul_div_cancel_left K hd] at h1
  have hmod : d * (a / d) + a % d = a := Nat.div_add_mod a d
  unfold rheDiv
  by_cases hqK : a / d = K
  · have hdk : d * (a / d) = d * K := by rw [hqK]
    have hr0 : a % d = 0 := by omega
    split_ifs <;> omega
  · split_ifs <;> omega

/-- The binary64 rounding of `n / d` never exceeds an integer bound
below `2^53` on the value `n / d` (such integers are exactly
representable, so rounding cannot cross them). -/
theorem roundDoubleMS_le (n d N : Nat) (hd : 0 < d) (hN53 : N < 2 ^ 53)
    (hle : n ≤ d * N) :
    (roundDoubleMS n d).1 ≤ N * 2 ^ (roundDoubleMS n d).2 := by
  by_cases hn : n = 0
  · subst hn
    simp [roundDoubleMS]
  · have hn1 : 1 ≤ n := by omega
    obtain ⟨hA1, hA2⟩ := natLog2F_spec n n le_rfl hn1
    obtain ⟨hB1, hB2⟩ := natLog2F_spec d d le_rfl hd
    have hbranch : rdExp n d ≤ 53 + natLog2 d := by
      unfold rdExp
      split_ifs with hc
      · have h1 : d * 2 ^ natLog2 n ≤ d * (N * 2 ^ natLog2 d) := by
          calc d * 2 ^ natLog2 n ≤ n * 2 ^ natLog2 d := hc
          _ ≤ d * N * 2 ^ natLog2 d := Nat.mul_le_mul_right _ hle
          _ = d * (N * 2 ^ natLog2 d) := by ring
        have h2 : 2 ^ natLog2 n ≤ N * 2 ^ natLog2 d := Nat.le_of_mul_le_mul_left h1 hd
        have h3 : N * 2 ^ natLog2 d < 2 ^ (53 + natLog2 d) := by
          rw [pow_add]
          exact (Nat.mul_lt_mul_right (pow_pos (by norm_num) _)).mpr hN53
        have h4 : natLog2 n < 53 + natLog2 d :=
          (Nat.pow_lt_pow_iff_right (by norm_num)).mp (lt_of_le_of_lt h2 h3)
        omega
      · have h2 : (2 : Nat) ^ natLog2 n < 2 ^ (natLog2 d + 1 + 53) := by
          calc (2 : Nat) ^ natLog2 n ≤ n := hA1
          _ ≤ d * N := hle
          _ < 2 ^ (natLog2 d + 1) * 2 ^ 53 := Nat.mul_lt_mul_of_lt_of_lt hB2 hN53
          _ = 2 ^ (natLog2 d + 1 + 53) := by rw [← pow_add]
        have h4 : natLog2 n < natLog2 d + 1 + 53 :=
          (Nat.pow_lt_pow_iff_right (by norm_num)).mp h2
        omega
    have hcond : ¬ (n = 0 ∨ d = 0) := by omega
    have heq : roundDoubleMS n d =
        (rheDiv (n * 2 ^ (53 + natLog2 d - rdExp n d)) d, 53 + natLog2 d - rdExp n d) := by
      unfold roundDoubleMS
      rw [if_neg hcond, if_pos hbranch]
    rw [heq]
    apply rheDiv_le
    · exact hd
    · calc n * 2 ^ (53 + natLog2 d - rdExp n d)
          ≤ d * N * 2 ^ (53 + natLog2 d - rdExp n d) :=
        Nat.mul_le_mul_right _ hle
      _ = d * (N * 2 ^ (53 + natLog2 d - rdExp n d)) := by ring

/-- The binary64 target length of the time filter never exceeds the
trajectory length (for lengths below the 53-bit mantissa range, which
covers every JavaScript array). -/
theorem jsTargetLength_le (len t : Nat) (hlen1 : 1 ≤ len) (hlen53 : len < 2 ^ 53)
    (ht : t ≤ 100) : jsTargetLength len t ≤ len := by
  have hratio : (roundDoubleMS t 100).1 ≤ 1 * 2 ^ (roundDoubleMS t 100).2 :=
    roundDoubleMS_le t 100 1 (by norm_num) (by norm_num) (by omega)
  have hprod : (roundDoubleMS (len * (roundDoubleMS t 100).1)
        (2 ^ (roundDoubleMS t 100).2)).1 ≤
      len * 2 ^ (roundDoubleMS (len * (roundDoubleMS t 100).1)
        (2 ^ (roundDoubleMS t 100).2)).2 := by
    apply roundDoubleMS_le
    · exact pow_pos (by norm_num) _
    · exact hlen53
    · calc len * (roundDoubleMS t 100).1
          ≤ len * (1 * 2 ^ (roundDoubleMS t 100).2) := Nat.mul_le_mul_left _ hratio
      _ = 2 ^ (roundDoubleMS t 100).2 * len := by ring
  have hfloor : (roundDoubleMS (len * (roundDoubleMS t 100).1)
        (2 ^ (roundDoubleMS t 100).2)).1 /
      2 ^ (roundDoubleMS (len * (roundDoubleMS t 100).1)
        (2 ^ (roundDoubleMS t 100).2)).2 ≤ len := by
    have h1 : (roundDoubleMS (len * (roundDoubleMS t 100).1)
          (2 ^ (roundDoubleMS t 100).2)).1 /
        2 ^ (roundDoubleMS (len * (roundDoubleMS t 100).1)
          (2 ^ (roundDoubleMS t 100).2)).2 ≤
        len * 2 ^ (roundDoubleMS (len * (roundDoubleMS t 100).1)
          (2 ^ (roundDoubleMS t 100).2)).2 /
        2 ^ (roundDoubleMS (len * (roundDoubleMS t 100).1)
          (2 ^ (roundDoubleMS t 100).2)).2 := Nat.div_le_div_right hprod
    rwa [Nat.mul_div_cancel len (pow_pos (by norm_num) _)] at h1
  unfold jsTargetLength
  exact max_le hlen1 hfloor

/-- Counterexample for C8: a balloon whose trajectory is empty is mapped
to an empty filtered trajectory, not to one of the claimed length
`max 1 (floor(length * selectedTime / 100))` (which is 1); and the
program's binary64 arithmetic diverges from that exact formula on
non-empty trajectories as well — a 50-point trajectory at slider value
58 is cut to `Math.floor(28.999999999999996) = 28` points where the
exact formula gives 29. -/
theorem getFilteredBalloons_formula_fails :
    (((getFilteredBalloons (some [("b", Balloon.mk "b" [])]) 50).getD []).map
        (fun e => e.2.trajectory.length) ≠
      [max 1 ((Balloon.mk "b" []).trajectory.length * 50 / 100)]) ∧
    (((getFilteredBalloons (some [("L50", fiftyBalloon)]) 58).getD []).map
        (fun e => e.2.trajectory.length) ≠
      [max 1 (fiftyBalloon.trajectory.length * 58 / 100)]) :=
  ⟨by decide, by decide⟩

/-- Claim C8 (amended): the time filter is a pure function; at
`selectedTime = 100` it returns the balloons object unchanged, and
otherwise it maps every balloon with a non-empty trajectory (of length
below `2^53`, covering every JavaScript array) to a new balloon whose
trajectory is the non-empty prefix of length
`max 1 (Math.floor(length * (selectedTime / 100)))` of the original,
the floor computed in binary64 arithmetic (`jsTargetLength`), which can
be one less than the exact `floor(length * selectedTime / 100)`. -/
theorem getFilteredBalloons_spec (bs : BalloonsMap) (t : Nat) (ht : t ≤ 100)
    (hne : ∀ e ∈ bs, e.2.trajectory ≠ [])
    (hsz : ∀ e ∈ bs, e.2.trajectory.length < 2 ^ 53) :
    (t = 100 → getFilteredBalloons (some bs) t = some bs) ∧
    (t ≠ 100 →
      getFilteredBalloons (some bs) t =
        some (bs.map fun e =>
          (e.1, { e.2 with trajectory :=
            e.2.trajectory.take (jsTargetLength e.2.trajectory.length t) })) ∧
      ∀ e ∈ bs,
        (e.2.trajectory.take (jsTargetLength e.2.trajectory.length t)).length =
          jsTargetLength e.2.trajectory.length t ∧
        e.2.trajectory.take (jsTargetLength e.2.trajectory.length t) ≠ []) := by
  constructor
  · intro h100
    subst h100
    simp [getFilteredBalloons]
  · intro hneq
    have hbeq : (t == 100) = false := beq_eq_false_iff_ne.mpr hneq
    constructor
    · simp [getFilteredBalloons, hbeq]
    · intro e he
      have hlen : 0 < e.2.trajectory.length := List.length_pos.mpr (hne e he)
      have htarget : jsTargetLength e.2.trajectory.length t ≤ e.2.trajectory.length :=
        jsTargetLength_le e.2.trajectory.length t hlen (hsz e he) ht
      have htarget1 : 1 ≤ jsTargetLength e.2.trajectory.length t := le_max_left _ _
      constructor
      · rw [List.length_take]
        exact Nat.min_eq_left htarget
      · have hpos : 0 < (e.2.trajectory.take
            (jsTargetLength e.2.trajectory.length t)).length := by
          rw [List.length_take]
          exact lt_min htarget1 hlen
        exact List.length_pos.mp hpos

/-- Witness for C8 at a concrete two-point balloon and slider value 50
(where the binary64 target length is 1). -/
theorem getFilteredBalloons_spec_witness :
    ((50 : Nat) = 100 → getFilteredBalloons (some [("wb", wFilteredBalloon)]) 50 =
        some [("wb", wFilteredBalloon)]) ∧
    ((50 : Nat) ≠ 100 →
      getFilteredBalloons (some [("wb", wFilteredBalloon)]) 50 =
        some (([("wb", wFilteredBalloon)] : BalloonsMap).map fun e =>
          (e.1, { e.2 with trajectory :=
            e.2.trajectory.take (jsTargetLength e.2.trajectory.length 50) })) ∧
      ∀ e ∈ ([("wb", wFilteredBalloon)] : BalloonsMap),
        (e.2.trajectory.take (jsTargetLength e.2.trajectory.length 50)).length =
          jsTargetLength e.2.trajectory.length 50 ∧
        e.2.trajectory.take (jsTargetLength e.2.trajectory.length 50) ≠ []) :=
  getFilteredBalloons_spec [("wb", wFilteredBalloon)] 50 (by decide) (by decide)
    (by decide)

/-- Claim C10: the monitoring set is a function of the balloons and
storms data alone — two application states agreeing on those datasets
produce the same monitoring set whatever their slider positions or storm
filters. -/
theorem monitoring_ignores_display_state (st1 st2 : AppState)
    (hb : st1.balloons = st2.balloons) (hs : st1.storms = st2.storms) :
    monitoringOf st1 = monitoringOf st2 := by
  unfold monitoringOf
  rw [hb, hs]

/-- Witness for C10: the same data under slider 100 with permissive
filters and slider 30 with restrictive filters. -/
theorem monitoring_ignores_display_state_witness :
    monitoringOf stateA = monitoringOf stateB :=
  monitoring_ignores_display_state stateA stateB rfl rfl

end HurricaneHunter
